import Mathlib

/-!
Shallow embedding of the form-definition layer in `viajes/forms.py`:
four Django form classes (`RegistroForm`, `EditarUsuarioForm`, `GuiaForm`,
`PilotoForm`, `ViajeForm`) whose non-trivial behaviour is
construction-time widget styling, dynamic choice population from a
directory listing, a data-dependent empty-option label, and pure text
normalization in `clean_*` methods.
-/

namespace Viajes

/-! ## Data model: widgets and fields -/

/-- Widget classes that occur in the embedded forms (`django.forms` widget
types, compared by `isinstance` in `ViajeForm.__init__`). -/
inductive WidgetKind where
  | textInput
  | numberInput
  | emailInput
  | dateInput
  | textarea
  | select
  | selectMultiple
  | checkboxSelectMultiple
  | radioSelect
  | fileInput
  | checkboxInput
  deriving DecidableEq, Repr

/-- Python dict assignment `d[k] = v` on an association list: an existing
key keeps its position and gets the new value, a new key is appended. -/
def attrsSet : List (String × String) → String → String → List (String × String)
  | [], k, v => [(k, v)]
  | (k', v') :: rest, k, v =>
      if k' = k then (k, v) :: rest else (k', v') :: attrsSet rest k v

/-- Python dict lookup `d.get(k)` on an association list. -/
def attrsGet : List (String × String) → String → Option String
  | [], _ => none
  | (k', v') :: rest, k => if k' = k then some v' else attrsGet rest k

/-- A widget: its class and its HTML attribute dict (`widget.attrs`). -/
structure Widget where
  kind : WidgetKind
  attrs : List (String × String)
  deriving DecidableEq, Repr

/-- Embeds `field.widget.attrs[k] = v`. -/
def Widget.setAttr (w : Widget) (k v : String) : Widget :=
  { w with attrs := attrsSet w.attrs k v }

/-- Embeds `field.widget.attrs.get(k)`. -/
def Widget.getAttr (w : Widget) (k : String) : Option String :=
  attrsGet w.attrs k

/-- A choice value: Django choice pairs in this code use either strings
(avatar filenames) or Python booleans (`[(True, 'Activo'), (False, 'Borrador')]`). -/
inductive ChoiceValue where
  | str (s : String)
  | bool (b : Bool)
  deriving DecidableEq, Repr

/-- A form field as the forms manipulate it: name, display label,
required flag, widget, choice list (for choice fields), empty-option
label (for model-choice fields), and whether the field carries a
`queryset` attribute (`hasattr(field, 'queryset')`). -/
structure Field where
  name : String
  label : String
  required : Bool
  widget : Widget
  choices : List (ChoiceValue × String)
  emptyLabel : Option String
  hasQueryset : Bool
  deriving DecidableEq, Repr

/-- Lookup `self.fields[n]` in the ordered field dict. -/
def findField (n : String) (fs : List Field) : Option Field :=
  fs.find? (fun f => f.name = n)

/-- Mutate the field bound to name `n` in place (`self.fields[n].attr = ...`). -/
def mapField (n : String) (g : Field → Field) (fs : List Field) : List Field :=
  fs.map fun f => if f.name = n then g f else f

/-- Python dict assignment `self.fields[n] = newF`: an existing key keeps
its position, a new key is appended. -/
def setField (n : String) (newF : Field) (fs : List Field) : List Field :=
  if fs.any (fun f => f.name = n) then
    fs.map fun f => if f.name = n then newF else f
  else
    fs ++ [newF]

/-! ## GuiaForm (`GuiaForm.__init__`, forms.py lines 105-108) -/

/-- Embeds `GuiaForm.__init__`: after `super().__init__`, every field gets
`field.widget.attrs['class'] = 'form-control'`, with no exemption. -/
def guiaInit (fs : List Field) : List Field :=
  fs.map fun f => { f with widget := f.widget.setAttr "class" "form-control" }

/-! ## PilotoForm (`PilotoForm.__init__`, forms.py lines 140-144) -/

/-- The one failure the filesystem collaborator can report when the avatar
directory is listed (`os.listdir` raising). -/
inductive DirError where
  | directoryUnavailable
  deriving DecidableEq, Repr

/-- Python's ordinal string comparison `a <= b`, decided code point by
code point (lexicographic, case-sensitive). -/
def lexLeb : List Char → List Char → Bool
  | [], _ => true
  | _ :: _, [] => false
  | a :: as, b :: bs =>
      if a.toNat < b.toNat then true
      else if b.toNat < a.toNat then false
      else lexLeb as bs

/-- The order Python `sorted` uses on strings, as a relation. -/
def pyLe (s t : String) : Prop :=
  lexLeb s.data t.data = true

instance : DecidableRel pyLe :=
  fun s t => inferInstanceAs (Decidable (lexLeb s.data t.data = true))

/-- Embeds Python `sorted` on a list of strings: a stable sort by the
ordinal (code-point lexicographic) order. -/
def ordinalSort (l : List String) : List String :=
  l.insertionSort pyLe

/-- Embeds `PilotoForm.__init__`: `avatars = sorted(os.listdir(avatars_dir))`
followed by `self.fields['avatar'].choices = [(a, a) for a in avatars]`.
The listing comes from the filesystem collaborator as a `Except`-typed
result; the method has no exception handler, so a listing failure aborts
construction with that same error. -/
def pilotoInit (listing : Except DirError (List String)) (fs : List Field) :
    Except DirError (List Field) :=
  match listing with
  | .error e => .error e
  | .ok names =>
      .ok (mapField "avatar"
        (fun f => { f with choices := (ordinalSort names).map fun a => (ChoiceValue.str a, a) })
        fs)

/-! ## ViajeForm (`ViajeForm.__init__`, forms.py lines 169-191) -/

/-- The replacement `activo` field built at forms.py lines 187-191:
`forms.ChoiceField(choices=[(True, 'Activo'), (False, 'Borrador')],
widget=forms.Select(attrs={'class': 'form-control'}), label='Estado')`. -/
def activoChoiceField : Field :=
  { name := "activo"
    label := "Estado"
    required := true
    widget := { kind := .select, attrs := [("class", "form-control")] }
    choices := [(.bool true, "Activo"), (.bool false, "Borrador")]
    emptyLabel := none
    hasQueryset := false }

/-- Embeds `ViajeForm.__init__`. `guideExists` is the value of
`self.fields['guia'].queryset.exists()` reported by the persistence
collaborator. In order: (1) every field whose widget is not a
`CheckboxSelectMultiple` gets `class='form-control'`; (2) `pilotos`
gets `id='id_pilotos'`; (3) label overrides for `km` and `max_pilotos`;
(4) the `guia` empty label is chosen by whether any guide exists;
(5) the `activo` field is replaced by `activoChoiceField`. -/
def viajeInit (guideExists : Bool) (fs : List Field) : List Field :=
  let fs1 := fs.map fun f =>
    if f.widget.kind = .checkboxSelectMultiple then f
    else { f with widget := f.widget.setAttr "class" "form-control" }
  let fs2 := mapField "pilotos"
    (fun f => { f with widget := f.widget.setAttr "id" "id_pilotos" }) fs1
  let fs3 := mapField "km" (fun f => { f with label := "Kilómetros" }) fs2
  let fs4 := mapField "max_pilotos"
    (fun f => { f with label := "Máxima cantidad de pilotos" }) fs3
  let lbl := if guideExists then "Seleccione una guía" else "Aún sin asignar"
  let fs5 := fs4.map fun f =>
    if f.name = "guia" ∧ f.hasQueryset then { f with emptyLabel := some lbl } else f
  setField "activo" activoChoiceField fs5

/-! ## Concrete field lists at entry to `__init__`

The forms are `ModelForm`s over models in `viajes/models.py`, which is not
part of the sources; the pre-`__init__` state of each field dict (default
widget kinds, labels, required flags) therefore cannot be read off the
repository and is modelled from the spec. -/

/-- Shorthand for a plain field with the given name, label, widget kind
and widget attribute dict and no choice data. -/
def mkField (n lbl : String) (k : WidgetKind) (as : List (String × String)) : Field :=
  { name := n
    label := lbl
    required := true
    widget := { kind := k, attrs := as }
    choices := []
    emptyLabel := none
    hasQueryset := false }

/-- Modelled from the spec: the Guide form's field dict as built by the
model-schema collaborator before `GuiaForm.__init__` runs, for the Meta
field list `['nombre', 'apellido', 'email', 'dni', 'telefono', 'fecha_nac',
'ciudad', 'pais', 'sobre_mi', 'foto']`, with the class-level `fecha_nac`
date widget and the Meta `sobre_mi` textarea override; the remaining
widget kinds come from the missing `viajes/models.py` and are the
library defaults for text, email and file columns. -/
def guiaFields : List Field :=
  [ mkField "nombre" "Nombre" .textInput []
  , mkField "apellido" "Apellido" .textInput []
  , mkField "email" "Email" .emailInput []
  , mkField "dni" "Dni" .textInput []
  , mkField "telefono" "Telefono" .textInput []
  , { mkField "fecha_nac" "Fecha de nacimiento" .dateInput [("type", "date")] with
        required := false }
  , mkField "ciudad" "Ciudad" .textInput []
  , mkField "pais" "Pais" .textInput []
  , mkField "sobre_mi" "Sobre mi" .textarea [("rows", "4")]
  , mkField "foto" "Foto" .fileInput [] ]

/-- Modelled from the spec: the Pilot form's field dict before
`PilotoForm.__init__` runs, for the Meta field list `['telefono',
'fecha_nac', 'ciudad', 'pais', 'sobre_mi', 'moto', 'avatar']`; `avatar`
is the class-level `forms.ChoiceField(choices=[], widget=forms.RadioSelect)`,
so it enters `__init__` with an empty choice list. -/
def pilotoFields : List Field :=
  [ mkField "telefono" "Telefono" .textInput []
  , { mkField "fecha_nac" "Fecha de nacimiento" .dateInput [("type", "date")] with
        required := false }
  , mkField "ciudad" "Ciudad" .textInput []
  , mkField "pais" "Pais" .textInput []
  , mkField "sobre_mi" "Sobre mi" .textarea [("rows", "4")]
  , mkField "moto" "Moto" .textInput []
  , mkField "avatar" "Avatar" .radioSelect [] ]

/-- Modelled from the spec: the Trip form's field dict before
`ViajeForm.__init__` runs, for the Meta field list `['nombre', 'detalle',
'fecha_salida', 'cant_dias', 'km', 'dificultad', 'guia', 'pilotos',
'activo', 'max_pilotos']` with the Meta widget overrides for
`fecha_salida` and `detalle`. The spec exempts exactly the multi-select
`pilotos` field from the CSS-class rule and says it keeps its
library-default widget styling, so its default widget is the
checkbox multi-select that the `isinstance` test in `__init__` matches;
`guia` and `pilotos` are model-choice fields and carry a queryset. -/
def viajeFields : List Field :=
  [ mkField "nombre" "Nombre" .textInput []
  , mkField "detalle" "Detalle" .textarea [("rows", "4")]
  , mkField "fecha_salida" "Fecha salida" .dateInput [("type", "date")]
  , mkField "cant_dias" "Cant dias" .numberInput []
  , mkField "km" "Km" .numberInput []
  , mkField "dificultad" "Dificultad" .select []
  , { mkField "guia" "Guia" .select [] with
        required := false, hasQueryset := true, emptyLabel := some "---------" }
  , { mkField "pilotos" "Pilotos" .checkboxSelectMultiple [] with hasQueryset := true }
  , mkField "activo" "Activo" .checkboxInput []
  , mkField "max_pilotos" "Max pilotos" .numberInput [] ]

/-! ## Text normalization (`RegistroForm`/`EditarUsuarioForm` clean methods) -/

/-- Embeds Python `str.capitalize()` on the character list of a string:
first character uppercased, every later character lowercased. `Char.toUpper`
and `Char.toLower` carry the basic-latin portion of the Unicode case
table, on which all the normalized fields of this repository rely. -/
def pyCapitalizeL : List Char → List Char
  | [] => []
  | c :: cs => Char.toUpper c :: cs.map Char.toLower

/-- Embeds Python `str.capitalize()`. -/
def pyCapitalize (s : String) : String :=
  ⟨pyCapitalizeL s.data⟩

/-- Embeds Python `str.lower()`. -/
def pyLower (s : String) : String :=
  ⟨s.data.map Char.toLower⟩

/-- The exception a Python dict subscript raises on a missing key. -/
inductive CleanError where
  | keyError
  deriving DecidableEq, Repr

/-- Lookup in `self.cleaned_data`, embedded as an association list from
field names to submitted string values. -/
def cleanedGet (d : List (String × String)) (k : String) : Option String :=
  attrsGet d k

/-- Embeds `RegistroForm.clean_first_name`:
`self.cleaned_data.get('first_name', '')` then `.capitalize()`. -/
def registroCleanFirstName (d : List (String × String)) : Except CleanError String :=
  .ok (pyCapitalize ((cleanedGet d "first_name").getD ""))

/-- Embeds `RegistroForm.clean_last_name`:
`self.cleaned_data.get('last_name', '')` then `.capitalize()`. -/
def registroCleanLastName (d : List (String × String)) : Except CleanError String :=
  .ok (pyCapitalize ((cleanedGet d "last_name").getD ""))

/-- Embeds `RegistroForm.clean_username`:
`self.cleaned_data.get('username', '')` then `.lower()`. -/
def registroCleanUsername (d : List (String × String)) : Except CleanError String :=
  .ok (pyLower ((cleanedGet d "username").getD ""))

/-- Embeds `EditarUsuarioForm.clean_first_name`:
`self.cleaned_data['first_name'].capitalize()` — an unguarded subscript,
so a missing key raises `KeyError`. -/
def editarCleanFirstName (d : List (String × String)) : Except CleanError String :=
  match cleanedGet d "first_name" with
  | none => .error .keyError
  | some v => .ok (pyCapitalize v)

/-- Embeds `EditarUsuarioForm.clean_last_name`:
`self.cleaned_data['last_name'].capitalize()` — an unguarded subscript,
so a missing key raises `KeyError`. -/
def editarCleanLastName (d : List (String × String)) : Except CleanError String :=
  match cleanedGet d "last_name" with
  | none => .error .keyError
  | some v => .ok (pyCapitalize v)

/-! ## Choice validation -/

/-- Field-level validation failures of a choice field. -/
inductive ValError where
  | requiredMissing
  | invalidChoice
  deriving DecidableEq, Repr

/-- The string a choice value renders to when compared with a submitted
value (Python `str(value)`). -/
def choiceValueStr : ChoiceValue → String
  | .str s => s
  | .bool b => if b then "True" else "False"

/-- Modelled from the spec: the choice-field validation step executed by
the form library (not part of the sources) — `InvalidChoice` is raised
exactly when the submitted value is outside the candidate set built at
construction time. -/
def validateChoice (choices : List (ChoiceValue × String)) (v : String) :
    Except ValError String :=
  if choices.any fun c => choiceValueStr c.1 = v then .ok v
  else .error .invalidChoice

/-! ## Helper lemmas on the case table and attribute dicts -/

theorem char_toNat_ofNat {n : Nat} (h : n.isValidChar) : (Char.ofNat n).toNat = n := by
  simp only [Char.ofNat, dif_pos h]
  rfl

theorem toLower_eq_of_le (c : Char) (h : c.toNat ≥ 65 ∧ c.toNat ≤ 90) :
    c.toLower = Char.ofNat (c.toNat + 32) := by
  simp [Char.toLower, h]

theorem toLower_eq_self (c : Char) (h : ¬(c.toNat ≥ 65 ∧ c.toNat ≤ 90)) :
    c.toLower = c := by
  simp only [Char.toLower]
  rw [if_neg h]

theorem toUpper_eq_of_le (c : Char) (h : c.toNat ≥ 97 ∧ c.toNat ≤ 122) :
    c.toUpper = Char.ofNat (c.toNat - 32) := by
  simp [Char.toUpper, h]

theorem toUpper_eq_self (c : Char) (h : ¬(c.toNat ≥ 97 ∧ c.toNat ≤ 122)) :
    c.toUpper = c := by
  simp only [Char.toUpper]
  rw [if_neg h]

theorem toLower_toLower (c : Char) : c.toLower.toLower = c.toLower := by
  by_cases h : c.toNat ≥ 65 ∧ c.toNat ≤ 90
  · rw [toLower_eq_of_le c h]
    apply toLower_eq_self
    rw [char_toNat_ofNat (Or.inl (by omega))]
    omega
  · rw [toLower_eq_self c h, toLower_eq_self c h]

theorem toUpper_toUpper (c : Char) : c.toUpper.toUpper = c.toUpper := by
  by_cases h : c.toNat ≥ 97 ∧ c.toNat ≤ 122
  · rw [toUpper_eq_of_le c h]
    apply toUpper_eq_self
    rw [char_toNat_ofNat (Or.inl (by omega))]
    omega
  · rw [toUpper_eq_self c h, toUpper_eq_self c h]

theorem pyCapitalizeL_idem (l : List Char) :
    pyCapitalizeL (pyCapitalizeL l) = pyCapitalizeL l := by
  cases l with
  | nil => rfl
  | cons c cs =>
    simp only [pyCapitalizeL, toUpper_toUpper, List.map_map, List.cons.injEq, true_and]
    exact List.map_congr_left fun a _ => toLower_toLower a

theorem pyCapitalizeL_shape (l : List Char) (c : Char) (cs : List Char)
    (h : pyCapitalizeL l = c :: cs) :
    Char.toUpper c = c ∧ ∀ x ∈ cs, Char.toLower x = x := by
  cases l with
  | nil => exact absurd h (by simp [pyCapitalizeL])
  | cons a as =>
    simp only [pyCapitalizeL, List.cons.injEq] at h
    obtain ⟨rfl, rfl⟩ := h
    refine ⟨toUpper_toUpper a, ?_⟩
    intro x hx
    obtain ⟨y, -, rfl⟩ := List.mem_map.mp hx
    exact toLower_toLower y

theorem lexLeb_cons (x y : Char) (xs ys : List Char) :
    lexLeb (x :: xs) (y :: ys) = true ↔
      x.toNat < y.toNat ∨ (x.toNat = y.toNat ∧ lexLeb xs ys = true) := by
  by_cases h1 : x.toNat < y.toNat
  · simp [lexLeb, h1]
  · by_cases h2 : y.toNat < x.toNat
    · simp only [lexLeb, if_neg h1, if_pos h2]
      constructor
      · intro h; exact absurd h (by simp)
      · intro h; omega
    · have h3 : x.toNat = y.toNat := by omega
      simp [lexLeb, h1, h2, h3]

theorem lexLeb_total (xs ys : List Char) : lexLeb xs ys = true ∨ lexLeb ys xs = true := by
  induction xs generalizing ys with
  | nil => exact Or.inl rfl
  | cons x xs ih =>
    cases ys with
    | nil => exact Or.inr rfl
    | cons y ys =>
      rcases Nat.lt_trichotomy x.toNat y.toNat with h | h | h
      · exact Or.inl ((lexLeb_cons ..).mpr (Or.inl h))
      · rcases ih ys with h' | h'
        · exact Or.inl ((lexLeb_cons ..).mpr (Or.inr ⟨h, h'⟩))
        · exact Or.inr ((lexLeb_cons ..).mpr (Or.inr ⟨h.symm, h'⟩))
      · exact Or.inr ((lexLeb_cons ..).mpr (Or.inl h))

theorem lexLeb_trans (xs ys zs : List Char) (h1 : lexLeb xs ys = true)
    (h2 : lexLeb ys zs = true) : lexLeb xs zs = true := by
  induction xs generalizing ys zs with
  | nil => rfl
  | cons x xs ih =>
    cases ys with
    | nil => exact absurd h1 (by simp [lexLeb])
    | cons y ys =>
      cases zs with
      | nil => exact absurd h2 (by simp [lexLeb])
      | cons z zs =>
        rcases (lexLeb_cons ..).mp h1 with hxy | ⟨hxy, hr1⟩ <;>
          rcases (lexLeb_cons ..).mp h2 with hyz | ⟨hyz, hr2⟩
        · exact (lexLeb_cons ..).mpr (Or.inl (by omega))
        · exact (lexLeb_cons ..).mpr (Or.inl (by omega))
        · exact (lexLeb_cons ..).mpr (Or.inl (by omega))
        · exact (lexLeb_cons ..).mpr (Or.inr ⟨by omega, ih ys zs hr1 hr2⟩)

instance : IsTotal String pyLe :=
  ⟨fun s t => lexLeb_total s.data t.data⟩

instance : IsTrans String pyLe :=
  ⟨fun s t u => lexLeb_trans s.data t.data u.data⟩

theorem attrsGet_attrsSet_self (l : List (String × String)) (k v : String) :
    attrsGet (attrsSet l k v) k = some v := by
  induction l with
  | nil => simp [attrsSet, attrsGet]
  | cons p rest ih =>
    obtain ⟨k', v'⟩ := p
    by_cases h : k' = k <;> simp [attrsSet, attrsGet, h, ih]

/-! ## Claim theorems -/

/-- C1: in `ViajeForm`, after construction every field except `pilotos`
has widget attribute `class = "form-control"`, while `pilotos` has
attribute `id = "id_pilotos"` and no `class` attribute at all. -/
theorem viaje_pilotos_exempt_styling (guideExists : Bool) :
    ∀ f ∈ viajeInit guideExists viajeFields,
      (f.name = "pilotos" →
        f.widget.getAttr "id" = some "id_pilotos" ∧ f.widget.getAttr "class" = none)
      ∧ (f.name ≠ "pilotos" → f.widget.getAttr "class" = some "form-control") := by
  cases guideExists <;> decide

/-- The `pilotos` field as it stands after `ViajeForm.__init__`. -/
def viajePilotosStyled : Field :=
  { name := "pilotos"
    label := "Pilotos"
    required := true
    widget := { kind := .checkboxSelectMultiple, attrs := [("id", "id_pilotos")] }
    choices := []
    emptyLabel := none
    hasQueryset := true }

/-- Witness for C1 at the concrete `pilotos` field of the constructed form. -/
theorem viaje_pilotos_exempt_styling_witness :
    viajePilotosStyled.widget.getAttr "id" = some "id_pilotos"
    ∧ viajePilotosStyled.widget.getAttr "class" = none :=
  (viaje_pilotos_exempt_styling true viajePilotosStyled (by decide)).1 (by decide)

/-- C2: a failed avatar-directory listing aborts `PilotoForm` construction
with the same `DirectoryUnavailable` error: the failure is propagated,
never suppressed into a successfully built field list. -/
theorem piloto_dir_error_propagates (e : DirError) (fs : List Field) :
    pilotoInit (.error e) fs = .error e
    ∧ ∀ fs', pilotoInit (.error e) fs ≠ .ok fs' :=
  ⟨rfl, fun _ h => Except.noConfusion h⟩

/-- C3: in `ViajeForm`, the `guia` empty-option label is
"Aún sin asignar" when no guide records exist and "Seleccione una guía"
when at least one exists. -/
theorem viaje_guia_empty_label (guideExists : Bool) :
    (findField "guia" (viajeInit guideExists viajeFields)).map Field.emptyLabel
      = some (some (if guideExists then "Seleccione una guía" else "Aún sin asignar")) := by
  cases guideExists <;> decide

/-- C4: for every directory listing, the avatar choices of `PilotoForm`
are the listed filenames in ascending code-point lexicographic order,
each filename serving as both stored value and display label; the
listing `["b.png", "a.png", "C.png"]` yields `["C.png", "a.png", "b.png"]`. -/
theorem piloto_avatar_choices_sorted (names : List String) :
    ((pilotoInit (.ok names) pilotoFields).map fun fs =>
        (findField "avatar" fs).map Field.choices)
      = .ok (some ((ordinalSort names).map fun a => (ChoiceValue.str a, a)))
    ∧ List.Sorted pyLe (ordinalSort names)
    ∧ List.Perm (ordinalSort names) names
    ∧ ordinalSort ["b.png", "a.png", "C.png"] = ["C.png", "a.png", "b.png"] := by
  refine ⟨rfl, ?_, ?_, by decide⟩
  · exact List.sorted_insertionSort pyLe names
  · exact List.perm_insertionSort pyLe names

/-- C5: the capitalize normalization applied to `first_name` and
`last_name` is idempotent. -/
theorem capitalize_idem (s : String) :
    pyCapitalize (pyCapitalize s) = pyCapitalize s :=
  congrArg String.mk (pyCapitalizeL_idem s.data)

/-- C6: the Registration form's normalization never fails: the three
clean methods return a value on every cleaned-data dict; the first/last
name result has an uppercase first character and lowercase remainder
(both fixed points of the case table); the username is fully lowercased;
and concretely `"John"` normalizes to `"john"` and `capitalize("maría")`
is `"María"`. -/
theorem registro_normalization :
    (∀ d, ∃ v, registroCleanFirstName d = .ok v)
    ∧ (∀ d, ∃ v, registroCleanLastName d = .ok v)
    ∧ (∀ d, ∃ v, registroCleanUsername d = .ok v)
    ∧ (∀ s c cs, (pyCapitalize s).data = c :: cs →
        Char.toUpper c = c ∧ ∀ x ∈ cs, Char.toLower x = x)
    ∧ (∀ s, ∀ x ∈ (pyLower s).data, Char.toLower x = x)
    ∧ registroCleanUsername [("username", "John")] = .ok "john"
    ∧ pyCapitalize "maría" = "María" := by
  refine ⟨fun d => ⟨_, rfl⟩, fun d => ⟨_, rfl⟩, fun d => ⟨_, rfl⟩, ?_, ?_, rfl, rfl⟩
  · intro s c cs h
    exact pyCapitalizeL_shape s.data c cs h
  · intro s x hx
    obtain ⟨y, -, rfl⟩ := List.mem_map.mp hx
    exact toLower_toLower y

/-- Witness for C6 at the concrete input "maría". -/
theorem registro_normalization_witness : Char.toUpper 'M' = 'M' :=
  (registro_normalization.2.2.2.1 "maría" 'M' ['a', 'r', 'í', 'a'] (by decide)).1

/-- C7: in `GuiaForm`, after construction every field, with no exemption,
has widget attribute `class = "form-control"` — whatever field dict the
model-schema collaborator hands over. -/
theorem guia_all_fields_form_control (fs : List Field) (f : Field)
    (h : f ∈ guiaInit fs) : f.widget.getAttr "class" = some "form-control" := by
  obtain ⟨g, -, rfl⟩ := List.mem_map.mp h
  exact attrsGet_attrsSet_self g.widget.attrs "class" "form-control"

/-- Witness for C7 at the concrete `nombre` field of the constructed form. -/
theorem guia_all_fields_form_control_witness :
    (mkField "nombre" "Nombre" WidgetKind.textInput
        [("class", "form-control")]).widget.getAttr "class" = some "form-control" :=
  guia_all_fields_form_control guiaFields
    (mkField "nombre" "Nombre" WidgetKind.textInput [("class", "form-control")]) (by decide)

/-- C8: with an empty avatar-directory listing, `PilotoForm` is built
with an empty avatar choice set, and every submitted avatar value fails
choice validation with `InvalidChoice`. -/
theorem piloto_empty_dir_invalid_choice (v : String) :
    ((pilotoInit (.ok []) pilotoFields).map fun fs =>
        (findField "avatar" fs).map Field.choices)
      = .ok (some [])
    ∧ validateChoice [] v = .error .invalidChoice :=
  ⟨rfl, rfl⟩

/-- C9: in `ViajeForm`, after construction the `activo` field is a
choice field with exactly the two choices `True ↦ "Activo"` and
`False ↦ "Borrador"`, labelled "Estado", whose select widget carries
`class = "form-control"` even though it is rebuilt after the generic
styling pass. -/
theorem viaje_activo_two_valued (guideExists : Bool) :
    findField "activo" (viajeInit guideExists viajeFields)
      = some { name := "activo"
               label := "Estado"
               required := true
               widget := { kind := .select, attrs := [("class", "form-control")] }
               choices := [(.bool true, "Activo"), (.bool false, "Borrador")]
               emptyLabel := none
               hasQueryset := false } := by
  cases guideExists <;> decide

/-- C10: the User Edit form's clean methods subscript `cleaned_data`
without a default, so a missing key raises `KeyError`, while the
Registration form's clean methods default the missing value to the
empty string and succeed. -/
theorem editar_missing_key_raises (d : List (String × String))
    (h1 : cleanedGet d "first_name" = none) (h2 : cleanedGet d "last_name" = none) :
    editarCleanFirstName d = .error .keyError
    ∧ editarCleanLastName d = .error .keyError
    ∧ registroCleanFirstName d = .ok ""
    ∧ registroCleanLastName d = .ok "" := by
  refine ⟨?_, ?_, ?_, ?_⟩ <;>
    simp [editarCleanFirstName, editarCleanLastName, registroCleanFirstName,
      registroCleanLastName, h1, h2, pyCapitalize, pyCapitalizeL]

/-- Witness for C10 at the empty cleaned-data dict. -/
theorem editar_missing_key_raises_witness :
    editarCleanFirstName [] = .error .keyError
    ∧ editarCleanLastName [] = .error .keyError
    ∧ registroCleanFirstName [] = .ok ""
    ∧ registroCleanLastName [] = .ok "" :=
  editar_missing_key_raises [] rfl rfl

end Viajes
